import Mathlib

/-
Shallow embedding of awx/main/access.py: the per-model access classes
(policy evaluators), the registry dispatch helpers check_user_access and
get_user_queryset, and the data they read through the Django ORM.

Modelling conventions, used uniformly below:
  - Django querysets over a model table become Lean lists drawn from a World
    record that holds every table; queryset filter/Q-object joins become
    List.filter / List.any with the same join conditions on primary keys.
    count() truthiness becomes List.any; distinct() is the identity on these
    list models (base tables are pk-unique and filters never duplicate).
  - Machine-level dicts (the data payload) become a DataDict record: each
    key is Option (Option Nat), the outer layer meaning key presence and the
    inner layer the stored value (None or a pk).  Python dict truthiness is
    the truthy function below.
  - Methods that can raise (PermissionDenied, get_object_or_400 lookups,
    Model.objects.get, the NameError in ProjectAccess.can_change, the
    FieldError in PermissionAccess.can_change) return Except AccessError
    Bool; pure methods return Bool.
  - self.user.can_access(Model, action, ...) and self.user.get_queryset are
    model-layer glue (not in access.py) that re-enter check_user_access /
    get_user_queryset; with exactly one registered access class per model
    they are the corresponding access-class method, and are inlined as such.
  - The license reader LicenseReader().from_file() is an external oracle; it
    is modelled as the validation_info field of the World, together with the
    test_mode flag that models the `test in sys.argv` hack in
    HostAccess.can_add.
-/

namespace Awx

/-- Permission type constants PERM_INVENTORY_ADMIN / READ / WRITE / DEPLOY /
CHECK from awx.main.models.  The deploy and check constants double as the
job_type values of a JobTemplate. -/
inductive PermType where
  | admin
  | read
  | write
  | deploy
  | check
deriving DecidableEq, Repr

/-- Errors that the access methods can raise instead of returning a Bool:
PermissionDenied from rest_framework, the 400 of get_object_or_400, the
DoesNotExist of Model.objects.get, Python NameError (ProjectAccess refers to
an undefined variable named project) and Django FieldError
(PermissionAccess filters organization admins on a nonexistent field). -/
inductive AccessError where
  | permissionDenied (msg : String)
  | http400 (model : String)
  | doesNotExist (model : String)
  | keyError (key : String)
  | nameError (name : String)
  | fieldError (field : String)
deriving DecidableEq, Repr

/-- Decidable equality for Except results, so concrete access decisions can
be settled by decide. -/
instance {e a : Type} [DecidableEq e] [DecidableEq a] :
    DecidableEq (Except e a) :=
  fun x y =>
    match x, y with
    | .ok v, .ok v2 =>
      match decEq v v2 with
      | isTrue h => isTrue (h ▸ rfl)
      | isFalse h => isFalse (fun hc => h (Except.ok.inj hc))
    | .error v, .error v2 =>
      match decEq v v2 with
      | isTrue h => isTrue (h ▸ rfl)
      | isFalse h => isFalse (fun hc => h (Except.error.inj hc))
    | .ok _, .error _ => isFalse (fun hc => Except.noConfusion hc)
    | .error _, .ok _ => isFalse (fun hc => Except.noConfusion hc)

structure User where
  pk : Nat
  is_superuser : Bool
  is_active : Bool
deriving DecidableEq, Repr

structure Organization where
  pk : Nat
  admins : List Nat
  users : List Nat
  active : Bool
deriving DecidableEq, Repr

structure Team where
  pk : Nat
  organization : Nat
  users : List Nat
  active : Bool
deriving DecidableEq, Repr

structure Inventory where
  pk : Nat
  organization : Nat
  active : Bool
deriving DecidableEq, Repr

structure Host where
  pk : Nat
  inventory : Nat
  active : Bool
deriving DecidableEq, Repr

structure Group where
  pk : Nat
  inventory : Nat
  active : Bool
  all_parents : List Nat
  all_children : List Nat
deriving DecidableEq, Repr

structure Credential where
  pk : Nat
  user : Option Nat
  team : Option Nat
  active : Bool
deriving DecidableEq, Repr

structure Permission where
  pk : Nat
  user : Option Nat
  team : Option Nat
  inventory : Nat
  project : Option Nat
  permission_type : PermType
  active : Bool
deriving DecidableEq, Repr

structure Project where
  pk : Nat
  created_by : Option Nat
  organizations : List Nat
  teams : List Nat
  active : Bool
deriving DecidableEq, Repr

structure JobTemplate where
  pk : Nat
  inventory : Nat
  project : Nat
  job_type : PermType
  active : Bool
deriving DecidableEq, Repr

structure Job where
  pk : Nat
  status : String
deriving DecidableEq, Repr

structure JobHostSummary where
  pk : Nat
deriving DecidableEq, Repr

structure JobEvent where
  pk : Nat
deriving DecidableEq, Repr

/-- Result of LicenseReader().from_file(): a dict that may or may not carry
the free_instances and available_instances keys. -/
structure LicenseInfo where
  free_instances : Option Int
  available_instances : Option Int
deriving DecidableEq, Repr

/-- The relation store plus the external license oracle.  test_mode models
whether the string test occurs in sys.argv. -/
structure World where
  users : List User
  organizations : List Organization
  teams : List Team
  inventories : List Inventory
  hosts : List Host
  groups : List Group
  credentials : List Credential
  permissions : List Permission
  projects : List Project
  job_templates : List JobTemplate
  jobs : List Job
  job_host_summaries : List JobHostSummary
  job_events : List JobEvent
  validation_info : LicenseInfo
  test_mode : Bool
deriving DecidableEq, Repr

/-- A payload dict.  Outer Option: is the key present; inner Option: the
stored value (none models Python None).  method_key models the presence of
the special _method key checked by JobTemplateAccess.can_add. -/
structure DataDict where
  organization : Option (Option Nat)
  inventory : Option (Option Nat)
  user : Option (Option Nat)
  team : Option (Option Nat)
  project : Option (Option Nat)
  credential : Option (Option Nat)
  job_type : Option (Option PermType)
  method_key : Option Unit
deriving DecidableEq, Repr

/-- The empty dict (falsy in Python). -/
def DataDict.isEmpty (d : DataDict) : Bool :=
  d.organization.isNone && d.inventory.isNone && d.user.isNone &&
  d.team.isNone && d.project.isNone && d.credential.isNone &&
  d.job_type.isNone && d.method_key.isNone

/-- Python truthiness of an optional dict argument: None and the empty dict
are falsy. -/
def truthy : Option DataDict → Bool
  | none => false
  | some d => !d.isEmpty

/-- data.get with default None for the organization key. -/
def getOrgKey : Option DataDict → Option Nat
  | none => none
  | some d => d.organization.getD none

/-- Presence of the organization key (the Python `in` test). -/
def hasOrgKey : Option DataDict → Bool
  | none => false
  | some d => d.organization.isSome

/-- data.get with default None for the inventory key. -/
def getInvKey : Option DataDict → Option Nat
  | none => none
  | some d => d.inventory.getD none

/-- Presence of the inventory key. -/
def hasInvKey : Option DataDict → Bool
  | none => false
  | some d => d.inventory.isSome

/-- Table lookup by an optional pk value, as used by get_object_or_400 and
Model.objects.get: a pk of None never matches a row. -/
def find_org_by (w : World) : Option Nat → Option Organization
  | none => none
  | some pk => w.organizations.find? (fun o => o.pk == pk)

def find_inventory_by (w : World) : Option Nat → Option Inventory
  | none => none
  | some pk => w.inventories.find? (fun i => i.pk == pk)

def find_project_by (w : World) : Option Nat → Option Project
  | none => none
  | some pk => w.projects.find? (fun p => p.pk == pk)

def find_credential_by (w : World) : Option Nat → Option Credential
  | none => none
  | some pk => w.credentials.find? (fun c => c.pk == pk)

def find_user_by (w : World) : Option Nat → Option User
  | none => none
  | some pk => w.users.find? (fun v => v.pk == pk)

def find_team_by (w : World) : Option Nat → Option Team
  | none => none
  | some pk => w.teams.find? (fun t => t.pk == pk)

/-- Count of active superusers, User.objects.filter(is_active=True,
is_superuser=True).count(). -/
def activeSuperuserCount (w : World) : Nat :=
  (w.users.filter (fun v => v.is_active && v.is_superuser)).length

/-- BaseAccess defaults: superusers pass, everyone else fails. -/
def BaseAccess.can_read (u : User) : Bool := u.is_superuser

def BaseAccess.can_add (u : User) : Bool := u.is_superuser

def BaseAccess.can_change (u : User) : Bool := u.is_superuser

def BaseAccess.can_delete (u : User) : Bool := u.is_superuser

/-- UserAccess.get_queryset: active users; for non-superusers, filtered to
self, members of an organization the actor administers, or members of a team
the actor is on. -/
def UserAccess.get_queryset (w : World) (u : User) : List User :=
  let qs := w.users.filter (fun v => v.is_active)
  if u.is_superuser then qs
  else qs.filter (fun v =>
    v.pk == u.pk ||
    w.organizations.any (fun o => o.users.contains v.pk && o.admins.contains u.pk) ||
    w.teams.any (fun t => t.users.contains v.pk && t.users.contains u.pk))

/-- UserAccess.can_admin: superuser, or admin of an organization the target
user belongs to. -/
def UserAccess.can_admin (w : World) (u : User) (obj : User)
    (_data : Option DataDict) : Bool :=
  if u.is_superuser then true
  else w.organizations.any (fun o => o.users.contains obj.pk && o.admins.contains u.pk)

/-- UserAccess.can_change: self or can_admin. -/
def UserAccess.can_change (w : World) (u : User) (obj : User)
    (data : Option DataDict) : Bool :=
  (u.pk == obj.pk) || UserAccess.can_admin w u obj data

/-- UserAccess.can_read: matching_teams counts the teams of the acting user
filtered down to those containing the acting user (the target is not
consulted); nonzero count or can_change(obj, None) grants read. -/
def UserAccess.can_read (w : World) (u : User) (obj : User) : Bool :=
  ((w.teams.filter (fun t => t.users.contains u.pk)).filter
      (fun t => t.users.contains u.pk)).length != 0 ||
  UserAccess.can_change w u obj none

/-- UserAccess.can_add: superuser or admin of at least one organization. -/
def UserAccess.can_add (w : World) (u : User) (_data : Option DataDict) : Bool :=
  u.is_superuser || w.organizations.any (fun o => o.admins.contains u.pk)

/-- UserAccess.can_delete: a user cannot delete themselves, and the last
active superuser cannot be deleted; otherwise superuser or admin of an
organization the target belongs to. -/
def UserAccess.can_delete (w : World) (u : User) (obj : User) : Bool :=
  if obj.pk == u.pk then false
  else if obj.is_superuser && activeSuperuserCount w == 1 then false
  else u.is_superuser ||
    w.organizations.any (fun o => o.users.contains obj.pk && o.admins.contains u.pk)

/-- OrganizationAccess.get_queryset. -/
def OrganizationAccess.get_queryset (w : World) (u : User) : List Organization :=
  if u.is_superuser then w.organizations
  else w.organizations.filter (fun o => o.admins.contains u.pk || o.users.contains u.pk)

/-- OrganizationAccess.can_change: superuser or organization admin. -/
def OrganizationAccess.can_change (_w : World) (u : User) (obj : Organization)
    (_data : Option DataDict) : Bool :=
  u.is_superuser || obj.admins.contains u.pk

/-- OrganizationAccess.can_read: can_change or organization member. -/
def OrganizationAccess.can_read (w : World) (u : User) (obj : Organization) : Bool :=
  OrganizationAccess.can_change w u obj none || obj.users.contains u.pk

/-- OrganizationAccess.can_delete. -/
def OrganizationAccess.can_delete (w : World) (u : User) (obj : Organization) : Bool :=
  OrganizationAccess.can_change w u obj none

/-- PERMISSION_TYPES_ALLOWING_INVENTORY_READ. -/
def PERMISSION_TYPES_ALLOWING_INVENTORY_READ : List PermType :=
  [.admin, .write, .read]

/-- PERMISSION_TYPES_ALLOWING_INVENTORY_WRITE. -/
def PERMISSION_TYPES_ALLOWING_INVENTORY_WRITE : List PermType :=
  [.admin, .write]

/-- PERMISSION_TYPES_ALLOWING_INVENTORY_ADMIN. -/
def PERMISSION_TYPES_ALLOWING_INVENTORY_ADMIN : List PermType :=
  [.admin]

/-- The organization__admins__in join of InventoryAccess.get_queryset: the
inventory belongs to an organization the actor administers. -/
def inv_org_admin (w : World) (u : User) (i : Inventory) : Bool :=
  w.organizations.any (fun o => o.pk == i.organization && o.admins.contains u.pk)

/-- The permissions__team__users__in join: some grant row on this inventory
is held by a team the actor is on. -/
def perm_team_match (w : World) (u : User) (p : Permission) : Bool :=
  w.teams.any (fun t => some t.pk == p.team && t.users.contains u.pk)

/-- The permissions__user__in filter of InventoryAccess.get_queryset. -/
def inv_user_perm (w : World) (u : User) (allowed : List PermType)
    (i : Inventory) : Bool :=
  w.permissions.any (fun p =>
    p.inventory == i.pk && p.user == some u.pk &&
    allowed.contains p.permission_type)

/-- The permissions__team__users__in filter of
InventoryAccess.get_queryset. -/
def inv_team_perm (w : World) (u : User) (allowed : List PermType)
    (i : Inventory) : Bool :=
  w.permissions.any (fun p =>
    p.inventory == i.pk && perm_team_match w u p &&
    allowed.contains p.permission_type)

/-- InventoryAccess.get_queryset(allowed): active inventories; superusers
see all of them, others the union of the org-admin filter, the direct user
permission filter and the team permission filter, each restricted to the
allowed permission types. -/
def InventoryAccess.get_queryset (w : World) (u : User)
    (allowed : List PermType) : List Inventory :=
  let qs := w.inventories.filter (fun i => i.active)
  if u.is_superuser then qs
  else qs.filter (fun i =>
    inv_org_admin w u i || inv_user_perm w u allowed i || inv_team_perm w u allowed i)

/-- InventoryAccess.get_queryset with the default allowed argument, as the
registry invokes it for visibility. -/
def InventoryAccess.get_queryset0 (w : World) (u : User) : List Inventory :=
  InventoryAccess.get_queryset w u PERMISSION_TYPES_ALLOWING_INVENTORY_READ

/-- InventoryAccess.has_permission_types: pk membership of the object in the
allowed-restricted queryset (the source consults only obj.pk). -/
def InventoryAccess.has_permission_types (w : World) (u : User)
    (allowed : List PermType) (pk : Nat) : Bool :=
  (InventoryAccess.get_queryset w u allowed).any (fun i => i.pk == pk)

/-- InventoryAccess.can_read by inventory pk, for the Host and Group
evaluators that re-enter through self.user.can_access. -/
def InventoryAccess.can_read_pk (w : World) (u : User) (pk : Nat) : Bool :=
  InventoryAccess.has_permission_types w u PERMISSION_TYPES_ALLOWING_INVENTORY_READ pk

/-- InventoryAccess.can_read. -/
def InventoryAccess.can_read (w : World) (u : User) (obj : Inventory) : Bool :=
  InventoryAccess.can_read_pk w u obj.pk

/-- InventoryAccess.can_add: with no data, generic add permission; with data,
superusers pass, others need change access on the organization named in the
payload, which is looked up with get_object_or_400. -/
def InventoryAccess.can_add (w : World) (u : User)
    (data : Option DataDict) : Except AccessError Bool :=
  if !(truthy data) then
    .ok (u.is_superuser || w.organizations.any (fun o => o.admins.contains u.pk))
  else if u.is_superuser then .ok true
  else match find_org_by w (getOrgKey data) with
    | none => .error (.http400 "Organization")
    | some org => .ok (OrganizationAccess.can_change w u org none)

/-- InventoryAccess.can_change by pk: if the payload names an organization,
can_add must also pass; then write-level permission is required. -/
def InventoryAccess.can_change_pk (w : World) (u : User) (pk : Nat)
    (data : Option DataDict) : Except AccessError Bool :=
  if truthy data && hasOrgKey data then
    match InventoryAccess.can_add w u data with
    | .error e => .error e
    | .ok b =>
      if !b then .ok false
      else .ok (InventoryAccess.has_permission_types w u
        PERMISSION_TYPES_ALLOWING_INVENTORY_WRITE pk)
  else .ok (InventoryAccess.has_permission_types w u
    PERMISSION_TYPES_ALLOWING_INVENTORY_WRITE pk)

/-- InventoryAccess.can_change. -/
def InventoryAccess.can_change (w : World) (u : User) (obj : Inventory)
    (data : Option DataDict) : Except AccessError Bool :=
  InventoryAccess.can_change_pk w u obj.pk data

/-- InventoryAccess.can_write is the BaseAccess alias for can_change. -/
def InventoryAccess.can_write (w : World) (u : User) (obj : Inventory)
    (data : Option DataDict) : Except AccessError Bool :=
  InventoryAccess.can_change w u obj data

/-- InventoryAccess.can_admin: like can_change but at admin level. -/
def InventoryAccess.can_admin (w : World) (u : User) (obj : Inventory)
    (data : Option DataDict) : Except AccessError Bool :=
  if truthy data && hasOrgKey data then
    match InventoryAccess.can_add w u data with
    | .error e => .error e
    | .ok b =>
      if !b then .ok false
      else .ok (InventoryAccess.has_permission_types w u
        PERMISSION_TYPES_ALLOWING_INVENTORY_ADMIN obj.pk)
  else .ok (InventoryAccess.has_permission_types w u
    PERMISSION_TYPES_ALLOWING_INVENTORY_ADMIN obj.pk)

/-- InventoryAccess.can_delete = can_admin(obj, None). -/
def InventoryAccess.can_delete (w : World) (u : User)
    (obj : Inventory) : Except AccessError Bool :=
  InventoryAccess.can_admin w u obj none

/-- HostAccess.get_queryset: active hosts whose inventory is in the visible
inventory queryset of the acting user. -/
def HostAccess.get_queryset (w : World) (u : User) : List Host :=
  let invs := InventoryAccess.get_queryset0 w u
  (w.hosts.filter (fun h => h.active)).filter
    (fun h => invs.any (fun i => i.pk == h.inventory))

/-- HostAccess.can_read: read access on the parent inventory. -/
def HostAccess.can_read (w : World) (u : User) (obj : Host) : Bool :=
  InventoryAccess.can_read_pk w u obj.inventory

/-- HostAccess.can_add: denied without an inventory key; the inventory is
looked up with get_object_or_400 and change access on it is required; then
the license oracle is consulted, and exhausted capacity raises
PermissionDenied carrying available_instances rather than returning False.
The test_mode branch reproduces the sys.argv hack that forces
free_instances high during tests. -/
def HostAccess.can_add (w : World) (u : User)
    (data : Option DataDict) : Except AccessError Bool :=
  if !(truthy data) || !(hasInvKey data) then .ok false
  else match find_inventory_by w (getInvKey data) with
    | none => .error (.http400 "Inventory")
    | some inventory =>
      match InventoryAccess.can_change_pk w u inventory.pk none with
      | .error e => .error e
      | .ok c =>
        if !c then .ok false
        else
          let info := w.validation_info
          let free : Int := if w.test_mode then 99999999 else info.free_instances.getD 0
          if free > 0 then .ok true
          else .error (.permissionDenied
            ("license range of " ++ toString (info.available_instances.getD 0) ++
             " instances has been exceed"))

/-- HostAccess.can_change: moving a host to a different inventory raises
PermissionDenied; otherwise change access on the current inventory. -/
def HostAccess.can_change (w : World) (u : User) (obj : Host)
    (data : Option DataDict) : Except AccessError Bool :=
  if truthy data && !(getInvKey data == some obj.inventory) then
    .error (.permissionDenied "Unable to change inventory on a host")
  else InventoryAccess.can_change_pk w u obj.inventory none

/-- HostAccess has no can_delete override; BaseAccess applies. -/
def HostAccess.can_delete (u : User) (_obj : Host) : Bool :=
  BaseAccess.can_delete u

/-- GroupAccess.get_queryset, like HostAccess. -/
def GroupAccess.get_queryset (w : World) (u : User) : List Group :=
  let invs := InventoryAccess.get_queryset0 w u
  (w.groups.filter (fun g => g.active)).filter
    (fun g => invs.any (fun i => i.pk == g.inventory))

/-- GroupAccess.can_read: read access on the parent inventory. -/
def GroupAccess.can_read (w : World) (u : User) (obj : Group) : Bool :=
  InventoryAccess.can_read_pk w u obj.inventory

/-- GroupAccess.can_add. -/
def GroupAccess.can_add (w : World) (u : User)
    (data : Option DataDict) : Except AccessError Bool :=
  if !(truthy data) || !(hasInvKey data) then .ok false
  else match find_inventory_by w (getInvKey data) with
    | none => .error (.http400 "Inventory")
    | some inventory => InventoryAccess.can_change_pk w u inventory.pk none

/-- GroupAccess.can_change: change access on the parent inventory. -/
def GroupAccess.can_change (w : World) (u : User) (obj : Group)
    (_data : Option DataDict) : Except AccessError Bool :=
  InventoryAccess.can_change_pk w u obj.inventory none

/-- GroupAccess.can_delete is inherited from BaseAccess. -/
def GroupAccess.can_delete (u : User) (_obj : Group) : Bool :=
  BaseAccess.can_delete u

/-- The cycle test of GroupAccess.can_attach: parent_pks is the set of
ancestors of obj plus obj, child_pks the set of descendants of sub_obj plus
sub_obj, and the test asks whether their intersection is non-empty. -/
def group_cycle (obj sub_obj : Group) : Bool :=
  (obj.pk :: obj.all_parents).any
    (fun p => (sub_obj.pk :: sub_obj.all_children).contains p)

/-- GroupAccess.can_attach: first the BaseAccess requirements (change access
on obj and, unless skipped, read access on sub_obj under its own evaluator);
then, both objects being groups, the cycle guard group_cycle denies. -/
def GroupAccess.can_attach (w : World) (u : User) (obj sub_obj : Group)
    (_data : Option DataDict)
    (skip_sub_obj_read_check : Bool) : Except AccessError Bool :=
  let base : Except AccessError Bool :=
    match GroupAccess.can_change w u obj none with
    | .error e => .error e
    | .ok c =>
      if skip_sub_obj_read_check then .ok c
      else .ok (c && GroupAccess.can_read w u sub_obj)
  match base with
  | .error e => .error e
  | .ok b =>
    if !b then .ok false
    else
      if group_cycle obj sub_obj then .ok false
      else .ok true

/-- TeamAccess.get_queryset: active teams; superuser, org admin of the
owning organization, or team member. -/
def TeamAccess.get_queryset (w : World) (u : User) : List Team :=
  let qs := w.teams.filter (fun t => t.active)
  if u.is_superuser then qs
  else qs.filter (fun t =>
    w.organizations.any (fun o => o.pk == t.organization && o.admins.contains u.pk) ||
    t.users.contains u.pk)

/-- TeamAccess.can_add: superuser or admin of some organization. -/
def TeamAccess.can_add (w : World) (u : User) (_data : Option DataDict) : Bool :=
  u.is_superuser || w.organizations.any (fun o => o.admins.contains u.pk)

/-- TeamAccess.can_change: superuser or admin of the owning organization. -/
def TeamAccess.can_change (w : World) (u : User) (obj : Team)
    (_data : Option DataDict) : Bool :=
  u.is_superuser ||
  w.organizations.any (fun o => o.pk == obj.organization && o.admins.contains u.pk)

/-- TeamAccess.can_read: can_change or team member. -/
def TeamAccess.can_read (w : World) (u : User) (obj : Team) : Bool :=
  TeamAccess.can_change w u obj none || obj.users.contains u.pk

/-- TeamAccess.can_delete. -/
def TeamAccess.can_delete (w : World) (u : User) (obj : Team) : Bool :=
  TeamAccess.can_change w u obj none

/-- CredentialAccess.get_queryset: active credentials owned by the actor,
owned by a user whose member or admin organizations the actor administers,
owned by a team of an organization the actor administers, or owned by a team
the actor is on. -/
def CredentialAccess.get_queryset (w : World) (u : User) : List Credential :=
  let qs := w.credentials.filter (fun c => c.active)
  if u.is_superuser then qs
  else qs.filter (fun c =>
    c.user == some u.pk ||
    c.user.any (fun up =>
      w.organizations.any (fun o => o.users.contains up && o.admins.contains u.pk)) ||
    c.user.any (fun up =>
      w.organizations.any (fun o => o.admins.contains up && o.admins.contains u.pk)) ||
    c.team.any (fun tp => w.teams.any (fun t =>
      t.pk == tp &&
      w.organizations.any (fun o => o.pk == t.organization && o.admins.contains u.pk))) ||
    c.team.any (fun tp => w.teams.any (fun t => t.pk == tp && t.users.contains u.pk)))

/-- CredentialAccess.can_change: superuser, owner, admin of an organization
of the owning user, or admin of the owning team organization. -/
def CredentialAccess.can_change (w : World) (u : User) (obj : Credential)
    (_data : Option DataDict) : Bool :=
  if u.is_superuser then true
  else if obj.user == some u.pk then true
  else if obj.user.any (fun up =>
      w.organizations.any (fun o => o.users.contains up && o.admins.contains u.pk)) then
    true
  else if obj.team.any (fun tp => w.teams.any (fun t =>
      t.pk == tp &&
      w.organizations.any (fun o => o.pk == t.organization && o.admins.contains u.pk))) then
    true
  else false

/-- CredentialAccess.can_read = can_change(obj, None). -/
def CredentialAccess.can_read (w : World) (u : User) (obj : Credential) : Bool :=
  CredentialAccess.can_change w u obj none

/-- CredentialAccess.can_delete: ownerless credentials are deletable by
anyone; otherwise can_change. -/
def CredentialAccess.can_delete (w : World) (u : User) (obj : Credential) : Bool :=
  if obj.user == none && obj.team == none then true
  else CredentialAccess.can_change w u obj none

/-- CredentialAccess.can_add: superuser, or change access on the user or
team named in the payload.  When neither key is present the source falls off
the end and returns None, which the dispatcher coerces to a denial. -/
def CredentialAccess.can_add (w : World) (u : User)
    (data : Option DataDict) : Except AccessError Bool :=
  if u.is_superuser then .ok true
  else match data with
  | none => .ok false
  | some d =>
    if d.user.isSome then
      match find_user_by w (d.user.getD none) with
      | none => .error (.doesNotExist "User")
      | some v => .ok (UserAccess.can_change w u v none)
    else if d.team.isSome then
      match find_team_by w (d.team.getD none) with
      | none => .error (.doesNotExist "Team")
      | some t => .ok (TeamAccess.can_change w u t none)
    else .ok false

/-- ProjectAccess.get_queryset: no active filter; superusers see all,
others projects of their teams or of organizations they administer. -/
def ProjectAccess.get_queryset (w : World) (u : User) : List Project :=
  if u.is_superuser then w.projects
  else w.projects.filter (fun p =>
    w.teams.any (fun t => p.teams.contains t.pk && t.users.contains u.pk) ||
    w.organizations.any (fun o => p.organizations.contains o.pk && o.admins.contains u.pk))

/-- ProjectAccess.can_change: superuser or creator pass; otherwise, when the
actor administers an organization associated with the project, the loop body
refers to an undefined module-level name project and raises NameError; an
empty loop returns False. -/
def ProjectAccess.can_change (w : World) (u : User) (obj : Project)
    (_data : Option DataDict) : Except AccessError Bool :=
  if u.is_superuser then .ok true
  else if obj.created_by == some u.pk then .ok true
  else if (w.organizations.filter (fun o =>
      o.admins.contains u.pk && obj.organizations.contains o.pk)).isEmpty then
    .ok false
  else .error (.nameError "project")

/-- ProjectAccess.can_read = can_change(obj, None). -/
def ProjectAccess.can_read (w : World) (u : User)
    (obj : Project) : Except AccessError Bool :=
  ProjectAccess.can_change w u obj none

/-- ProjectAccess.can_delete. -/
def ProjectAccess.can_delete (w : World) (u : User)
    (obj : Project) : Except AccessError Bool :=
  ProjectAccess.can_change w u obj none

/-- PermissionAccess.get_queryset: everything, no filter. -/
def PermissionAccess.get_queryset (w : World) (_u : User) : List Permission :=
  w.permissions

/-- PermissionAccess.can_change: superuser; else admin of an organization of
the granted user; else, when a team grant is present, the filter on the
admins manager names a nonexistent field user and raises FieldError. -/
def PermissionAccess.can_change (w : World) (u : User) (obj : Permission)
    (_data : Option DataDict) : Except AccessError Bool :=
  if u.is_superuser then .ok true
  else if obj.user.any (fun up =>
      w.organizations.any (fun o => o.users.contains up && o.admins.contains u.pk)) then
    .ok true
  else if obj.team.isSome then .error (.fieldError "user")
  else .ok false

/-- PermissionAccess.can_read: the granted user, a member of the granted
team, or can_change. -/
def PermissionAccess.can_read (w : World) (u : User)
    (obj : Permission) : Except AccessError Bool :=
  if obj.user.isSome && obj.user == some u.pk then .ok true
  else if obj.team.any (fun tp =>
      w.teams.any (fun t => t.pk == tp && t.users.contains u.pk)) then .ok true
  else PermissionAccess.can_change w u obj none

/-- PermissionAccess.can_delete. -/
def PermissionAccess.can_delete (w : World) (u : User)
    (obj : Permission) : Except AccessError Bool :=
  PermissionAccess.can_change w u obj none

/-- JobTemplateAccess.get_queryset: superusers see everything unfiltered;
others see active templates whose project has an organization they
administer or a team they are on. -/
def JobTemplateAccess.get_queryset (w : World) (u : User) : List JobTemplate :=
  if u.is_superuser then w.job_templates
  else (w.job_templates.filter (fun j => j.active)).filter (fun j =>
    w.projects.any (fun p => p.pk == j.project &&
      w.organizations.any (fun o =>
        p.organizations.contains o.pk && o.admins.contains u.pk)) ||
    w.projects.any (fun p => p.pk == j.project &&
      w.teams.any (fun t => p.teams.contains t.pk && t.users.contains u.pk)))

/-- The admin_of_orgs filter of JobTemplateAccess.can_add: organizations of
the project that the actor administers. -/
def jt_admin_of_orgs (w : World) (u : User) (project : Project) : Bool :=
  w.organizations.any (fun o =>
    project.organizations.contains o.pk && o.admins.contains u.pk)

/-- The user_permissions filter of JobTemplateAccess.can_add: grants on the
inventory and project pair held directly by the actor. -/
def jt_user_permissions (w : World) (u : User) (ipk ppk : Nat) : List Permission :=
  w.permissions.filter (fun p =>
    p.inventory == ipk && p.project == some ppk && p.user == some u.pk)

/-- The team_permissions filter of JobTemplateAccess.can_add: grants on the
inventory and project pair held through a team of the actor. -/
def jt_team_permissions (w : World) (u : User) (ipk ppk : Nat) : List Permission :=
  w.permissions.filter (fun p =>
    p.inventory == ipk && p.project == some ppk && perm_team_match w u p)

/-- The final test of JobTemplateAccess.can_add: is the actor on a team
currently associated with the project. -/
def jt_on_project_team (w : World) (u : User) (project : Project) : Bool :=
  w.teams.any (fun t => project.teams.contains t.pk && t.users.contains u.pk)

/-- JobTemplateAccess.can_add, straight-line translation: superuser or
missing/_method data pass; the project and inventory are fetched with
Model.objects.get; org admins of the project pass; launch permission comes
from any matching grant for check jobs and from an explicit deploy grant for
deploy jobs; a credential in the payload must be owned by the actor directly
or through a team; finally the source returns False whenever the actor is on
a team associated with the project (note the inversion against its own
comment). -/
def JobTemplateAccess.can_add (w : World) (u : User)
    (data : Option DataDict) : Except AccessError Bool :=
  if u.is_superuser then .ok true
  else if !(truthy data) || (data.any (fun d => d.method_key.isSome)) then .ok true
  else match data with
  | none => .ok true
  | some d =>
    match d.project with
    | none => .error (.keyError "project")
    | some pv =>
      match find_project_by w pv with
      | none => .error (.doesNotExist "Project")
      | some project =>
        match d.inventory with
        | none => .error (.keyError "inventory")
        | some iv =>
          match find_inventory_by w iv with
          | none => .error (.doesNotExist "Inventory")
          | some inventory =>
            if jt_admin_of_orgs w u project then .ok true
            else
              match d.job_type with
              | none => .error (.keyError "job_type")
              | some job_type =>
              let user_permissions := jt_user_permissions w u inventory.pk project.pk
              let team_permissions := jt_team_permissions w u inventory.pk project.pk
              let launch_check := fun (p : Permission) =>
                (job_type == some PermType.check) ||
                (job_type == some PermType.deploy &&
                 p.permission_type == PermType.deploy)
              let has_launch_permission :=
                user_permissions.any launch_check || team_permissions.any launch_check
              if !has_launch_permission then .ok false
              else
                let team_block : Except AccessError Bool :=
                  if jt_on_project_team w u project then .ok false
                  else .ok true
                match d.credential with
                | none => team_block
                | some cv =>
                  match find_credential_by w cv with
                  | none => .error (.doesNotExist "Credential")
                  | some credential =>
                    let has_credential :=
                      (credential.team.any (fun tp => w.teams.any (fun t =>
                        t.pk == tp && t.users.contains u.pk))) ||
                      (credential.user.isSome && credential.user == some u.pk)
                    if !has_credential then .ok false
                    else team_block

/-- The payload JobTemplateAccess.can_read builds from the stored object. -/
def mk_jt_data (inv proj : Nat) (jt : PermType) : DataDict :=
  ⟨none, some (some inv), none, none, some (some proj), none, some (some jt), none⟩

/-- JobTemplateAccess.can_read: redirects to can_add on the rebuilt
payload. -/
def JobTemplateAccess.can_read (w : World) (u : User)
    (obj : JobTemplate) : Except AccessError Bool :=
  JobTemplateAccess.can_add w u (some (mk_jt_data obj.inventory obj.project obj.job_type))

/-- JobTemplateAccess.can_change: superuser only. -/
def JobTemplateAccess.can_change (_w : World) (u : User) (_obj : JobTemplate)
    (_data : Option DataDict) : Bool :=
  u.is_superuser

/-- JobTemplateAccess.can_delete is inherited from BaseAccess. -/
def JobTemplateAccess.can_delete (u : User) (_obj : JobTemplate) : Bool :=
  BaseAccess.can_delete u

/-- JobAccess.get_queryset: everything, no filter. -/
def JobAccess.get_queryset (w : World) (_u : User) : List Job :=
  w.jobs

/-- JobAccess.can_change: superuser and the job status is new. -/
def JobAccess.can_change (u : User) (obj : Job) (_data : Option DataDict) : Bool :=
  u.is_superuser && obj.status == "new"

/-- JobAccess.can_start: unimplemented, always denies. -/
def JobAccess.can_start (_u : User) (_obj : Job) : Bool := false

/-- JobAccess.can_cancel: unimplemented, always denies. -/
def JobAccess.can_cancel (_u : User) (_obj : Job) : Bool := false

/-- JobHostSummaryAccess.get_queryset: everything. -/
def JobHostSummaryAccess.get_queryset (w : World) (_u : User) : List JobHostSummary :=
  w.job_host_summaries

/-- JobEventAccess.get_queryset: everything. -/
def JobEventAccess.get_queryset (w : World) (_u : User) : List JobEvent :=
  w.job_events

/-- An object of one of the registered model classes, for the uniform
dispatch entry point. -/
inductive Obj where
  | user (v : User)
  | organization (o : Organization)
  | inventory (i : Inventory)
  | host (h : Host)
  | group (g : Group)
  | credential (c : Credential)
  | team (t : Team)
  | project (p : Project)
  | permission (p : Permission)
  | jobTemplate (j : JobTemplate)
  | job (j : Job)
  | jobHostSummary (s : JobHostSummary)
  | jobEvent (e : JobEvent)
deriving DecidableEq, Repr

/-- The registered model classes, the keys of access_registry. -/
inductive ModelClass where
  | user
  | organization
  | inventory
  | host
  | group
  | credential
  | team
  | project
  | permission
  | jobTemplate
  | job
  | jobHostSummary
  | jobEvent
deriving DecidableEq, Repr

/-
check_user_access(user, model_class, action, *args): with exactly one
registered access class per model, the dispatch loop looks up the method
named for the action (inherited BaseAccess methods included), returns its
result when truthy, and returns False when the method is absent or its
result is falsy; raised exceptions propagate.  One Lean entry point per
action name follows; the object argument selects the model class.
-/

/-- Dispatch of the read action. -/
def check_user_access_read (w : World) (u : User) : Obj → Except AccessError Bool
  | .user v => .ok (UserAccess.can_read w u v)
  | .organization o => .ok (OrganizationAccess.can_read w u o)
  | .inventory i => .ok (InventoryAccess.can_read w u i)
  | .host h => .ok (HostAccess.can_read w u h)
  | .group g => .ok (GroupAccess.can_read w u g)
  | .credential c => .ok (CredentialAccess.can_read w u c)
  | .team t => .ok (TeamAccess.can_read w u t)
  | .project p => ProjectAccess.can_read w u p
  | .permission p => PermissionAccess.can_read w u p
  | .jobTemplate j => JobTemplateAccess.can_read w u j
  | .job _ => .ok (BaseAccess.can_read u)
  | .jobHostSummary _ => .ok (BaseAccess.can_read u)
  | .jobEvent _ => .ok (BaseAccess.can_read u)

/-- Dispatch of the add action. -/
def check_user_access_add (w : World) (u : User) (m : ModelClass)
    (data : Option DataDict) : Except AccessError Bool :=
  match m with
  | .user => .ok (UserAccess.can_add w u data)
  | .organization => .ok (BaseAccess.can_add u)
  | .inventory => InventoryAccess.can_add w u data
  | .host => HostAccess.can_add w u data
  | .group => GroupAccess.can_add w u data
  | .credential => CredentialAccess.can_add w u data
  | .team => .ok (TeamAccess.can_add w u data)
  | .project => .ok (BaseAccess.can_add u)
  | .permission => .ok (BaseAccess.can_add u)
  | .jobTemplate => JobTemplateAccess.can_add w u data
  | .job => .ok (BaseAccess.can_add u)
  | .jobHostSummary => .ok (BaseAccess.can_add u)
  | .jobEvent => .ok (BaseAccess.can_add u)

/-- Dispatch of the change action. -/
def check_user_access_change (w : World) (u : User) (o : Obj)
    (data : Option DataDict) : Except AccessError Bool :=
  match o with
  | .user v => .ok (UserAccess.can_change w u v data)
  | .organization o => .ok (OrganizationAccess.can_change w u o data)
  | .inventory i => InventoryAccess.can_change w u i data
  | .host h => HostAccess.can_change w u h data
  | .group g => GroupAccess.can_change w u g data
  | .credential c => .ok (CredentialAccess.can_change w u c data)
  | .team t => .ok (TeamAccess.can_change w u t data)
  | .project p => ProjectAccess.can_change w u p data
  | .permission p => PermissionAccess.can_change w u p data
  | .jobTemplate j => .ok (JobTemplateAccess.can_change w u j data)
  | .job j => .ok (JobAccess.can_change u j data)
  | .jobHostSummary _ => .ok (BaseAccess.can_change u)
  | .jobEvent _ => .ok (BaseAccess.can_change u)

/-- Dispatch of the delete action. -/
def check_user_access_delete (w : World) (u : User) : Obj → Except AccessError Bool
  | .user v => .ok (UserAccess.can_delete w u v)
  | .organization o => .ok (OrganizationAccess.can_delete w u o)
  | .inventory i => InventoryAccess.can_delete w u i
  | .host h => .ok (HostAccess.can_delete u h)
  | .group g => .ok (GroupAccess.can_delete u g)
  | .credential c => .ok (CredentialAccess.can_delete w u c)
  | .team t => .ok (TeamAccess.can_delete w u t)
  | .project p => ProjectAccess.can_delete w u p
  | .permission p => PermissionAccess.can_delete w u p
  | .jobTemplate j => .ok (JobTemplateAccess.can_delete u j)
  | .job _ => .ok (BaseAccess.can_delete u)
  | .jobHostSummary _ => .ok (BaseAccess.can_delete u)
  | .jobEvent _ => .ok (BaseAccess.can_delete u)

/-- Dispatch of the start action: only JobAccess defines can_start, every
other evaluator abstains, which degrades to a denial. -/
def check_user_access_start (_w : World) (u : User) : Obj → Except AccessError Bool
  | .job j => .ok (JobAccess.can_start u j)
  | _ => .ok false

/-- Dispatch of the cancel action: only JobAccess defines can_cancel. -/
def check_user_access_cancel (_w : World) (u : User) : Obj → Except AccessError Bool
  | .job j => .ok (JobAccess.can_cancel u j)
  | _ => .ok false

/-- get_user_queryset(user, model_class): with one registered access class
per model the visibility resolver returns that single queryset unchanged. -/
def get_user_queryset (w : World) (u : User) : ModelClass → List Obj
  | .user => (UserAccess.get_queryset w u).map Obj.user
  | .organization => (OrganizationAccess.get_queryset w u).map Obj.organization
  | .inventory => (InventoryAccess.get_queryset0 w u).map Obj.inventory
  | .host => (HostAccess.get_queryset w u).map Obj.host
  | .group => (GroupAccess.get_queryset w u).map Obj.group
  | .credential => (CredentialAccess.get_queryset w u).map Obj.credential
  | .team => (TeamAccess.get_queryset w u).map Obj.team
  | .project => (ProjectAccess.get_queryset w u).map Obj.project
  | .permission => (PermissionAccess.get_queryset w u).map Obj.permission
  | .jobTemplate => (JobTemplateAccess.get_queryset w u).map Obj.jobTemplate
  | .job => (JobAccess.get_queryset w u).map Obj.job
  | .jobHostSummary => (JobHostSummaryAccess.get_queryset w u).map Obj.jobHostSummary
  | .jobEvent => (JobEventAccess.get_queryset w u).map Obj.jobEvent

/-- The unfiltered collection of a model class in a world. -/
def all_objects (w : World) : ModelClass → List Obj
  | .user => w.users.map Obj.user
  | .organization => w.organizations.map Obj.organization
  | .inventory => w.inventories.map Obj.inventory
  | .host => w.hosts.map Obj.host
  | .group => w.groups.map Obj.group
  | .credential => w.credentials.map Obj.credential
  | .team => w.teams.map Obj.team
  | .project => w.projects.map Obj.project
  | .permission => w.permissions.map Obj.permission
  | .jobTemplate => w.job_templates.map Obj.jobTemplate
  | .job => w.jobs.map Obj.job
  | .jobHostSummary => w.job_host_summaries.map Obj.jobHostSummary
  | .jobEvent => w.job_events.map Obj.jobEvent

/-- pk membership in the active-filtered inventory table: what every
superuser-side inventory permission check reduces to. -/
def activeInvMem (w : World) (pk : Nat) : Bool :=
  (w.inventories.filter (fun i => i.active)).any (fun i => i.pk == pk)

/-- A host payload carrying only an inventory key. -/
def mk_host_data (ipk : Nat) : DataDict :=
  ⟨none, some (some ipk), none, none, none, none, none, none⟩

/-
Concrete fixtures used by witnesses and counterexamples.  fxActor is a
plain user, fxSuper the only superuser, fxTarget an unrelated user.
-/

def fxActor : User := ⟨1, false, true⟩

def fxSuper : User := ⟨2, true, true⟩

def fxTarget : User := ⟨3, false, true⟩

def fxOrg : Organization := ⟨10, [], [], true⟩

def fxInv : Inventory := ⟨20, 10, true⟩

def fxTeam : Team := ⟨30, 10, [1], true⟩

def fxLicense0 : LicenseInfo := ⟨some 0, some 10⟩

/-- An otherwise empty world holding the three fixture users, the fixture
organization and the fixture inventory, with an exhausted license. -/
def fxWorld : World :=
  ⟨[fxActor, fxSuper, fxTarget], [fxOrg], [], [fxInv],
   [], [], [], [], [], [], [], [], [], fxLicense0, false⟩

/-- Admin-level direct grant of the fixture actor on the fixture
inventory. -/
def fxGrantAdmin : Permission := ⟨40, some 1, none, 20, none, .admin, true⟩

/-- Fixture world extended with the admin grant, so fxActor can change
fxInv; the license still reports zero free instances. -/
def wC2 : World := ⟨[fxActor, fxSuper, fxTarget], [fxOrg], [], [fxInv],
   [], [], [], [fxGrantAdmin], [], [], [], [], [], fxLicense0, false⟩

/-- Fixture groups: gA is a parent of gB (so gB lists gA among its
ancestors and gA lists gB among its descendants); gC is unrelated. -/
def fxGroupA : Group := ⟨50, 20, true, [], [51]⟩

def fxGroupB : Group := ⟨51, 20, true, [50], []⟩

def fxGroupC : Group := ⟨52, 20, true, [], []⟩

/-- The C2 fixture world with the three groups added. -/
def wC5 : World := ⟨[fxActor, fxSuper, fxTarget], [fxOrg], [], [fxInv],
   [], [fxGroupA, fxGroupB, fxGroupC], [], [fxGrantAdmin], [], [], [], [], [],
   fxLicense0, false⟩

/-- World for claim C7: the actor is on a team containing only themselves,
the target shares nothing with the actor, and no organization has any
admins or members. -/
def wC7 : World := ⟨[fxActor, fxSuper, fxTarget], [fxOrg], [fxTeam], [fxInv],
   [], [], [], [], [], [], [], [], [], fxLicense0, false⟩

/-- The project of claim C8 with the fixture team currently associated. -/
def fxProjTeam : Project := ⟨61, none, [], [30], true⟩

/-- The same project with the team association removed. -/
def fxProjNoTeam : Project := ⟨61, none, [], [], true⟩

/-- Read-level grant held through the fixture team on the fixture inventory
and the claim C8 project. -/
def fxGrantTeamPair : Permission := ⟨45, none, some 30, 20, some 61, .read, true⟩

/-- Claim C8 world with the project/team association present. -/
def wC8a : World := ⟨[fxActor, fxSuper, fxTarget], [fxOrg], [fxTeam], [fxInv],
   [], [], [], [fxGrantTeamPair], [fxProjTeam], [], [], [], [], fxLicense0, false⟩

/-- Claim C8 world with the association removed (stale grant). -/
def wC8b : World := ⟨[fxActor, fxSuper, fxTarget], [fxOrg], [fxTeam], [fxInv],
   [], [], [], [fxGrantTeamPair], [fxProjNoTeam], [], [], [], [], fxLicense0, false⟩

/-- Check-level direct grant of the fixture actor on the fixture
inventory. -/
def fxGrantCheck : Permission := ⟨41, some 1, none, 20, none, .check, true⟩

/-- Read-level direct grant of the fixture actor on the fixture
inventory. -/
def fxGrantRead : Permission := ⟨42, some 1, none, 20, none, .read, true⟩

/-- Claim C3 world with only the check-level grant. -/
def wC3 : World := ⟨[fxActor, fxSuper, fxTarget], [fxOrg], [], [fxInv],
   [], [], [], [fxGrantCheck], [], [], [], [], [], fxLicense0, false⟩

/-- Claim C3 world with only the read-level grant. -/
def wC3r : World := ⟨[fxActor, fxSuper, fxTarget], [fxOrg], [], [fxInv],
   [], [], [], [fxGrantRead], [], [], [], [], [], fxLicense0, false⟩

/-- The claim C4 project: the fixture team is currently associated. -/
def fxProjC4 : Project := ⟨62, none, [], [30], true⟩

/-- Direct read grant of the fixture actor on the pair of fxInv and
fxProjC4. -/
def fxGrantPairRead : Permission := ⟨46, some 1, none, 20, some 62, .read, true⟩

/-- Claim C4 counterexample world: the actor holds exactly one direct
read-level grant on the pair, and is on a team associated with the
project. -/
def wC4c : World := ⟨[fxActor, fxSuper, fxTarget], [fxOrg], [fxTeam], [fxInv],
   [], [], [], [fxGrantPairRead], [fxProjC4], [], [], [], [], fxLicense0, false⟩

/-- The claim C4 witness project, with no associated teams. -/
def fxProjC4w : Project := ⟨63, none, [], [], true⟩

/-- Direct read grant of the fixture actor on the pair of fxInv and
fxProjC4w. -/
def fxGrantPairRead2 : Permission := ⟨47, some 1, none, 20, some 63, .read, true⟩

/-- Claim C4 witness world. -/
def wC4w : World := ⟨[fxActor, fxSuper, fxTarget], [fxOrg], [fxTeam], [fxInv],
   [], [], [], [fxGrantPairRead2], [fxProjC4w], [], [], [], [], fxLicense0, false⟩

/-- An inactive (soft-deleted) project. -/
def fxProjInactive : Project := ⟨64, none, [], [], false⟩

/-- An inactive permission grant. -/
def fxPermInactive : Permission := ⟨48, some 3, none, 20, none, .read, false⟩

/-- Claim C9 counterexample world holding only inactive instances of the
Project and Permission models. -/
def wC9 : World := ⟨[fxActor, fxSuper, fxTarget], [fxOrg], [], [fxInv],
   [], [], [], [fxPermInactive], [fxProjInactive], [], [], [], [], fxLicense0, false⟩

/-- What the dispatch entry points actually give a superuser: read, add,
change, delete, start and cancel per registered model class, and the
visibility querysets.  Everything is granted except: Host and Group creation
require a payload naming an inventory (and Host creation the license gate);
the Inventory, Host and Group object checks require the relevant inventory
to be active; User deletion is denied for the actor themselves and for the
last active superuser; Job change requires status new; Job start and cancel
always deny.  Visibility is the whole table except for the active filters of
the User, Inventory, Host, Group, Credential and Team querysets. -/
def superuser_profile (w : World) (u : User) : Prop :=
  (∀ v, check_user_access_read w u (.user v) = .ok true) ∧
  (∀ o, check_user_access_read w u (.organization o) = .ok true) ∧
  (∀ i, check_user_access_read w u (.inventory i) = .ok (activeInvMem w i.pk)) ∧
  (∀ h, check_user_access_read w u (.host h) = .ok (activeInvMem w h.inventory)) ∧
  (∀ g, check_user_access_read w u (.group g) = .ok (activeInvMem w g.inventory)) ∧
  (∀ c, check_user_access_read w u (.credential c) = .ok true) ∧
  (∀ t, check_user_access_read w u (.team t) = .ok true) ∧
  (∀ p, check_user_access_read w u (.project p) = .ok true) ∧
  (∀ p, check_user_access_read w u (.permission p) = .ok true) ∧
  (∀ j, check_user_access_read w u (.jobTemplate j) = .ok true) ∧
  (∀ j, check_user_access_read w u (.job j) = .ok true) ∧
  (∀ s, check_user_access_read w u (.jobHostSummary s) = .ok true) ∧
  (∀ e, check_user_access_read w u (.jobEvent e) = .ok true) ∧
  (∀ d, check_user_access_add w u .user d = .ok true) ∧
  (∀ d, check_user_access_add w u .organization d = .ok true) ∧
  (∀ d, check_user_access_add w u .inventory d = .ok true) ∧
  (check_user_access_add w u .host none = .ok false) ∧
  (check_user_access_add w u .group none = .ok false) ∧
  (∀ d, check_user_access_add w u .credential d = .ok true) ∧
  (∀ d, check_user_access_add w u .team d = .ok true) ∧
  (∀ d, check_user_access_add w u .project d = .ok true) ∧
  (∀ d, check_user_access_add w u .permission d = .ok true) ∧
  (∀ d, check_user_access_add w u .jobTemplate d = .ok true) ∧
  (∀ d, check_user_access_add w u .job d = .ok true) ∧
  (∀ d, check_user_access_add w u .jobHostSummary d = .ok true) ∧
  (∀ d, check_user_access_add w u .jobEvent d = .ok true) ∧
  (∀ v d, check_user_access_change w u (.user v) d = .ok true) ∧
  (∀ o d, check_user_access_change w u (.organization o) d = .ok true) ∧
  (∀ i d, check_user_access_change w u (.inventory i) d =
    .ok (activeInvMem w i.pk)) ∧
  (∀ h, check_user_access_change w u (.host h) none =
    .ok (activeInvMem w h.inventory)) ∧
  (∀ g d, check_user_access_change w u (.group g) d =
    .ok (activeInvMem w g.inventory)) ∧
  (∀ c d, check_user_access_change w u (.credential c) d = .ok true) ∧
  (∀ t d, check_user_access_change w u (.team t) d = .ok true) ∧
  (∀ p d, check_user_access_change w u (.project p) d = .ok true) ∧
  (∀ p d, check_user_access_change w u (.permission p) d = .ok true) ∧
  (∀ j d, check_user_access_change w u (.jobTemplate j) d = .ok true) ∧
  (∀ j d, check_user_access_change w u (.job j) d = .ok (j.status == "new")) ∧
  (∀ s d, check_user_access_change w u (.jobHostSummary s) d = .ok true) ∧
  (∀ e d, check_user_access_change w u (.jobEvent e) d = .ok true) ∧
  (∀ v, check_user_access_delete w u (.user v) =
    .ok (!(v.pk == u.pk) &&
         !(v.is_superuser && (activeSuperuserCount w == 1)))) ∧
  (∀ o, check_user_access_delete w u (.organization o) = .ok true) ∧
  (∀ i, check_user_access_delete w u (.inventory i) = .ok (activeInvMem w i.pk)) ∧
  (∀ h, check_user_access_delete w u (.host h) = .ok true) ∧
  (∀ g, check_user_access_delete w u (.group g) = .ok true) ∧
  (∀ c, check_user_access_delete w u (.credential c) = .ok true) ∧
  (∀ t, check_user_access_delete w u (.team t) = .ok true) ∧
  (∀ p, check_user_access_delete w u (.project p) = .ok true) ∧
  (∀ p, check_user_access_delete w u (.permission p) = .ok true) ∧
  (∀ j, check_user_access_delete w u (.jobTemplate j) = .ok true) ∧
  (∀ j, check_user_access_delete w u (.job j) = .ok true) ∧
  (∀ s, check_user_access_delete w u (.jobHostSummary s) = .ok true) ∧
  (∀ e, check_user_access_delete w u (.jobEvent e) = .ok true) ∧
  (∀ j, check_user_access_start w u (.job j) = .ok false) ∧
  (∀ j, check_user_access_cancel w u (.job j) = .ok false) ∧
  (get_user_queryset w u .user =
    (w.users.filter (fun v => v.is_active)).map Obj.user) ∧
  (get_user_queryset w u .organization = w.organizations.map Obj.organization) ∧
  (get_user_queryset w u .inventory =
    (w.inventories.filter (fun i => i.active)).map Obj.inventory) ∧
  (get_user_queryset w u .host =
    ((w.hosts.filter (fun h => h.active)).filter (fun h =>
      (w.inventories.filter (fun i => i.active)).any
        (fun i => i.pk == h.inventory))).map Obj.host) ∧
  (get_user_queryset w u .group =
    ((w.groups.filter (fun g => g.active)).filter (fun g =>
      (w.inventories.filter (fun i => i.active)).any
        (fun i => i.pk == g.inventory))).map Obj.group) ∧
  (get_user_queryset w u .credential =
    (w.credentials.filter (fun c => c.active)).map Obj.credential) ∧
  (get_user_queryset w u .team =
    (w.teams.filter (fun t => t.active)).map Obj.team) ∧
  (get_user_queryset w u .project = w.projects.map Obj.project) ∧
  (get_user_queryset w u .permission = w.permissions.map Obj.permission) ∧
  (get_user_queryset w u .jobTemplate = w.job_templates.map Obj.jobTemplate) ∧
  (get_user_queryset w u .job = w.jobs.map Obj.job) ∧
  (get_user_queryset w u .jobHostSummary =
    w.job_host_summaries.map Obj.jobHostSummary) ∧
  (get_user_queryset w u .jobEvent = w.job_events.map Obj.jobEvent)

/-- A job whose status is not new. -/
def fxJobPending : Job := ⟨80, "pending"⟩

/-- An inactive host in the fixture inventory. -/
def fxHostInactive : Host := ⟨71, 20, false⟩

/-- Claim C1 counterexample world. -/
def wC1 : World := ⟨[fxActor, fxSuper, fxTarget], [fxOrg], [], [fxInv],
   [fxHostInactive], [], [], [], [], [], [fxJobPending], [], [], fxLicense0, false⟩

/-- With a data of None the inventory change check never raises: it is
exactly the write-level permission test. -/
theorem InventoryAccess.can_change_pk_none (w : World) (u : User) (pk : Nat) :
    InventoryAccess.can_change_pk w u pk none =
      .ok (InventoryAccess.has_permission_types w u
        PERMISSION_TYPES_ALLOWING_INVENTORY_WRITE pk) := rfl

/-- Claim C10: for every actor, superusers included, HostAccess.can_change
raises PermissionDenied whenever an object and a payload are both supplied
and the payload names an inventory different from the current one. -/
theorem C10_host_change_inventory_guard (w : World) (u : User) (obj : Host)
    (d : DataDict) (j : Nat) (hj : d.inventory = some (some j))
    (hne : j ≠ obj.inventory) :
    HostAccess.can_change w u obj (some d) =
      .error (.permissionDenied "Unable to change inventory on a host") := by
  have hemp : d.isEmpty = false := by
    simp [DataDict.isEmpty, hj]
  have hbeq : (j == obj.inventory) = false := by
    simp [hne]
  simp [HostAccess.can_change, truthy, getInvKey, hj, hemp, hbeq]

/-- Witness for C10 at a concrete host and payload. -/
theorem C10_witness :
    HostAccess.can_change fxWorld fxActor ⟨70, 20, true⟩ (some (mk_host_data 99)) =
      .error (.permissionDenied "Unable to change inventory on a host") :=
  C10_host_change_inventory_guard fxWorld fxActor ⟨70, 20, true⟩
    (mk_host_data 99) 99 rfl (by decide)

/-- Claim C6: a user can never delete their own account, and a superuser
target that is the only remaining active superuser cannot be deleted even by
a superuser actor. -/
theorem C6_user_delete_guards (w : World) (u obj : User) :
    (obj.pk = u.pk → UserAccess.can_delete w u obj = false) ∧
    (obj ∈ w.users → obj.is_active = true → obj.is_superuser = true →
      activeSuperuserCount w = 1 → UserAccess.can_delete w u obj = false) := by
  constructor
  · intro h
    simp [UserAccess.can_delete, h]
  · intro _ _ hsup hcount
    by_cases hself : obj.pk = u.pk
    · simp [UserAccess.can_delete, hself]
    · simp [UserAccess.can_delete, hself, hsup, hcount]

/-- Witness for C6: in the fixture world fxSuper is the only active
superuser; fxSuper cannot delete fxSuper, and fxActor cannot delete
fxSuper. -/
theorem C6_witness :
    UserAccess.can_delete fxWorld fxSuper fxSuper = false ∧
    UserAccess.can_delete fxWorld fxActor fxSuper = false :=
  ⟨(C6_user_delete_guards fxWorld fxSuper fxSuper).1 rfl,
   (C6_user_delete_guards fxWorld fxActor fxSuper).2 (by decide) rfl rfl (by decide)⟩

/-- Claim C2: with change access to the inventory named in the payload, Host
creation raises the quota error carrying available_instances when the oracle
reports zero free instances, and succeeds when it reports more than zero. -/
theorem C2_host_add_quota (w : World) (u : User) (ipk : Nat) (inv : Inventory)
    (hfind : find_inventory_by w (some ipk) = some inv)
    (hch : InventoryAccess.can_change_pk w u inv.pk none = .ok true)
    (htest : w.test_mode = false) :
    (w.validation_info.free_instances.getD 0 = 0 →
      HostAccess.can_add w u (some (mk_host_data ipk)) =
        .error (.permissionDenied ("license range of " ++
          toString (w.validation_info.available_instances.getD 0) ++
          " instances has been exceed"))) ∧
    (w.validation_info.free_instances.getD 0 > 0 →
      HostAccess.can_add w u (some (mk_host_data ipk)) = .ok true) := by
  constructor
  · intro h0
    simp [HostAccess.can_add, truthy, DataDict.isEmpty, mk_host_data, hasInvKey,
      getInvKey, hfind, hch, htest, h0]
  · intro hpos
    simp [HostAccess.can_add, truthy, DataDict.isEmpty, mk_host_data, hasInvKey,
      getInvKey, hfind, hch, htest, hpos]

/-- Witness for C2: the quota error is raised in the exhausted fixture
world. -/
theorem C2_witness :
    HostAccess.can_add wC2 fxActor (some (mk_host_data 20)) =
      .error (.permissionDenied ("license range of " ++
        toString (wC2.validation_info.available_instances.getD 0) ++
        " instances has been exceed")) :=
  (C2_host_add_quota wC2 fxActor 20 fxInv rfl rfl rfl).1 rfl

/-- GroupAccess.can_attach without skip evaluates to the cycle guard when
the base requirements pass, and to a denial otherwise. -/
theorem GroupAccess.can_attach_eval (w : World) (u : User) (obj sub_obj : Group)
    (d : Option DataDict) (c : Bool)
    (hc : GroupAccess.can_change w u obj none = .ok c) :
    GroupAccess.can_attach w u obj sub_obj d false =
      (if c && GroupAccess.can_read w u sub_obj then
        (if group_cycle obj sub_obj then .ok false else .ok true)
      else .ok false) := by
  unfold GroupAccess.can_attach
  rw [hc]
  cases c <;> cases hr : GroupAccess.can_read w u sub_obj <;>
    cases hcyc : group_cycle obj sub_obj <;> simp [hr, hcyc]

/-- Claim C5: when the base attach requirements hold (change access on A and
read access on B), attaching B under A is allowed exactly when the ancestors
of A plus A do not intersect the descendants of B plus B; and whenever A is
recorded among the ancestors of B, as it is after a successful A-attach-B,
the reverse attach of A under B is denied. -/
theorem C5_group_attach_cycle (w : World) (u : User) (A B : Group)
    (d : Option DataDict)
    (hA : GroupAccess.can_change w u A none = .ok true)
    (hB : GroupAccess.can_read w u B = true) :
    (GroupAccess.can_attach w u A B d false = .ok (!(group_cycle A B))) ∧
    (B.all_parents.contains A.pk = true →
      GroupAccess.can_attach w u B A d false = .ok false) := by
  constructor
  · rw [GroupAccess.can_attach_eval w u A B d true hA, hB]
    cases hc : group_cycle A B <;> simp [hc]
  · intro hAB
    have hmem : group_cycle B A = true := by
      rw [group_cycle, List.any_eq_true]
      refine ⟨A.pk, ?_, ?_⟩
      · exact List.mem_cons_of_mem _ (by simpa using hAB)
      · simp
    rw [GroupAccess.can_attach_eval w u B A d _ rfl, hmem]
    split <;> rfl

/-- Witness for C5: attaching the unrelated gC under gA is accepted, and
the reverse attach of gA under its child gB is rejected. -/
theorem C5_witness :
    GroupAccess.can_attach wC5 fxActor fxGroupA fxGroupC none false = .ok true ∧
    GroupAccess.can_attach wC5 fxActor fxGroupB fxGroupA none false = .ok false :=
  ⟨(C5_group_attach_cycle wC5 fxActor fxGroupA fxGroupC none rfl rfl).1,
   (C5_group_attach_cycle wC5 fxActor fxGroupA fxGroupB none rfl rfl).2 rfl⟩

/-- Claim C7 is violated by the code: the actor is not the target, shares no
team with the target and administers no organization of the target, yet
UserAccess.can_read returns true, because the matching_teams count inspects
only the acting user and fires for any team membership at all. -/
theorem C7_user_read_without_relation :
    fxActor.is_superuser = false ∧
    fxActor.pk ≠ fxTarget.pk ∧
    (wC7.teams.any (fun t =>
      t.users.contains fxActor.pk && t.users.contains fxTarget.pk)) = false ∧
    (wC7.organizations.any (fun o =>
      o.users.contains fxTarget.pk && o.admins.contains fxActor.pk)) = false ∧
    UserAccess.can_read wC7 fxActor fxTarget = true := by decide

/-- Claim C8 is violated by the code, in both directions: with a team-based
grant on the inventory and project pair, JobTemplateAccess.can_add denies
when the team is still associated with the project and accepts when the
association has been removed, the opposite of the rule the claim (and the
source comment above the final block) states. -/
theorem C8_team_association_inverted :
    fxGrantTeamPair.team = some fxTeam.pk ∧
    fxTeam.users.contains fxActor.pk = true ∧
    fxProjTeam.teams.contains fxTeam.pk = true ∧
    JobTemplateAccess.can_add wC8a fxActor
      (some (mk_jt_data 20 61 .check)) = .ok false ∧
    fxProjNoTeam.teams.contains fxTeam.pk = false ∧
    JobTemplateAccess.can_add wC8b fxActor
      (some (mk_jt_data 20 61 .check)) = .ok true := by decide

/-- For a non-superuser actor whose only grant relation to an active
inventory is the single direct grant g (no org-admin path, no team path,
pk-unique inventory table), has_permission_types holds exactly when the
level of g is in the allowed set. -/
theorem inv_hpt_single_user_grant (w : World) (u : User) (inv : Inventory)
    (g : Permission) (allowed : List PermType)
    (hsu : u.is_superuser = false)
    (hmem : inv ∈ w.inventories)
    (hact : inv.active = true)
    (huniq : ∀ i ∈ w.inventories, i.pk = inv.pk → i = inv)
    (hnoadm : inv_org_admin w u inv = false)
    (hg : g ∈ w.permissions) (hgu : g.user = some u.pk)
    (hgi : g.inventory = inv.pk)
    (honly : ∀ p ∈ w.permissions, p.inventory = inv.pk →
      (p.user = some u.pk ∨ perm_team_match w u p = true) → p = g) :
    InventoryAccess.has_permission_types w u allowed inv.pk =
      allowed.contains g.permission_type := by
  rw [Bool.eq_iff_iff]
  constructor
  · intro h
    rw [InventoryAccess.has_permission_types, List.any_eq_true] at h
    obtain ⟨i, hi, hpk⟩ := h
    rw [InventoryAccess.get_queryset] at hi
    simp only [hsu, Bool.false_eq_true, if_false, List.mem_filter] at hi
    obtain ⟨⟨hiw, _⟩, hpred⟩ := hi
    have hieq : i = inv := huniq i hiw (by simpa using hpk)
    subst hieq
    rw [Bool.or_eq_true, Bool.or_eq_true] at hpred
    rcases hpred with (horg | huser) | hteam
    · rw [hnoadm] at horg
      cases horg
    · rw [inv_user_perm, List.any_eq_true] at huser
      obtain ⟨p, hpw, hp⟩ := huser
      rw [Bool.and_eq_true, Bool.and_eq_true] at hp
      obtain ⟨⟨hpi, hpu⟩, hpt⟩ := hp
      have hpg : p = g :=
        honly p hpw (by simpa using hpi) (Or.inl (by simpa using hpu))
      subst hpg
      exact hpt
    · rw [inv_team_perm, List.any_eq_true] at hteam
      obtain ⟨p, hpw, hp⟩ := hteam
      rw [Bool.and_eq_true, Bool.and_eq_true] at hp
      obtain ⟨⟨hpi, hpu⟩, hpt⟩ := hp
      have hpg : p = g := honly p hpw (by simpa using hpi) (Or.inr hpu)
      subst hpg
      exact hpt
  · intro h
    rw [InventoryAccess.has_permission_types, List.any_eq_true]
    refine ⟨inv, ?_, by simp⟩
    rw [InventoryAccess.get_queryset]
    simp only [hsu, Bool.false_eq_true, if_false, List.mem_filter]
    refine ⟨⟨hmem, hact⟩, ?_⟩
    rw [Bool.or_eq_true, Bool.or_eq_true]
    refine Or.inl (Or.inr ?_)
    rw [inv_user_perm, List.any_eq_true]
    refine ⟨g, hg, ?_⟩
    simp only [hgi, hgu, Bool.and_eq_true, beq_iff_eq]
    exact ⟨⟨trivial, trivial⟩, h⟩

/-- Claim C3 as amended: for a non-superuser actor who is not an org admin
of the organization of the active inventory and whose only grant relation to
it is the single direct grant g, with a payload that does not name an
organization, each check succeeds exactly when the level of g lies in the
corresponding allowed set: read for admin, write or read; change and write
for admin or write; admin for admin alone.  In particular an admin grant
passes all three checks, a read grant passes only the read check, and a
check-level grant passes none of them. -/
theorem C3_amended_inventory_grant_levels (w : World) (u : User)
    (inv : Inventory) (g : Permission)
    (hsu : u.is_superuser = false)
    (hmem : inv ∈ w.inventories)
    (hact : inv.active = true)
    (huniq : ∀ i ∈ w.inventories, i.pk = inv.pk → i = inv)
    (hnoadm : inv_org_admin w u inv = false)
    (hg : g ∈ w.permissions) (hgu : g.user = some u.pk)
    (hgi : g.inventory = inv.pk)
    (honly : ∀ p ∈ w.permissions, p.inventory = inv.pk →
      (p.user = some u.pk ∨ perm_team_match w u p = true) → p = g) :
    (InventoryAccess.can_read w u inv =
      PERMISSION_TYPES_ALLOWING_INVENTORY_READ.contains g.permission_type) ∧
    (∀ d : Option DataDict, hasOrgKey d = false →
      InventoryAccess.can_change w u inv d =
        .ok (PERMISSION_TYPES_ALLOWING_INVENTORY_WRITE.contains g.permission_type) ∧
      InventoryAccess.can_write w u inv d =
        .ok (PERMISSION_TYPES_ALLOWING_INVENTORY_WRITE.contains g.permission_type) ∧
      InventoryAccess.can_admin w u inv d =
        .ok (PERMISSION_TYPES_ALLOWING_INVENTORY_ADMIN.contains g.permission_type)) := by
  have hR := inv_hpt_single_user_grant w u inv g
    PERMISSION_TYPES_ALLOWING_INVENTORY_READ hsu hmem hact huniq hnoadm hg hgu hgi honly
  have hW := inv_hpt_single_user_grant w u inv g
    PERMISSION_TYPES_ALLOWING_INVENTORY_WRITE hsu hmem hact huniq hnoadm hg hgu hgi honly
  have hA := inv_hpt_single_user_grant w u inv g
    PERMISSION_TYPES_ALLOWING_INVENTORY_ADMIN hsu hmem hact huniq hnoadm hg hgu hgi honly
  refine ⟨hR, ?_⟩
  intro d hd
  have hguard : (truthy d && hasOrgKey d) = false := by
    rw [hd, Bool.and_false]
  refine ⟨?_, ?_, ?_⟩
  · rw [InventoryAccess.can_change, InventoryAccess.can_change_pk, hguard]
    simp only [Bool.false_eq_true, if_false]
    rw [hW]
  · rw [InventoryAccess.can_write, InventoryAccess.can_change,
      InventoryAccess.can_change_pk, hguard]
    simp only [Bool.false_eq_true, if_false]
    rw [hW]
  · rw [InventoryAccess.can_admin, hguard]
    simp only [Bool.false_eq_true, if_false]
    rw [hA]

/-- Claim C3 as stated is violated by the code: the non-superuser fixture
actor is no org admin, holds a single direct grant at check level on the
active fixture inventory, yet the read check fails, because
PERMISSION_TYPES_ALLOWING_INVENTORY_READ does not include the check
level. -/
theorem C3_counterexample :
    fxActor.is_superuser = false ∧
    fxInv.active = true ∧
    inv_org_admin wC3 fxActor fxInv = false ∧
    wC3.permissions = [fxGrantCheck] ∧
    fxGrantCheck.user = some fxActor.pk ∧
    fxGrantCheck.inventory = fxInv.pk ∧
    fxGrantCheck.permission_type = PermType.check ∧
    InventoryAccess.can_read wC3 fxActor fxInv = false := by decide

/-- Witness for the amended claim C3, at the read-level grant: read passes,
change and admin fail. -/
theorem C3_witness :
    InventoryAccess.can_read wC3r fxActor fxInv = true ∧
    InventoryAccess.can_change wC3r fxActor fxInv none = .ok false ∧
    InventoryAccess.can_admin wC3r fxActor fxInv none = .ok false := by
  have h := C3_amended_inventory_grant_levels wC3r fxActor fxInv fxGrantRead
    rfl (by decide) rfl (by decide) (by decide) (by decide) rfl rfl (by decide)
  exact ⟨h.1, (h.2 none rfl).1, (h.2 none rfl).2.2⟩

/-- Claim C4 as amended: a non-superuser actor who administers none of the
organizations of the project, holds exactly one grant on the inventory and
project pair (directly, with no team grants on the pair), and is on no team
currently associated with the project, can create a check-type job template
whatever the grant level is, and can create a deploy-type job template
exactly when the grant level is deploy.  The amendment adds the condition
that the actor is on no team of the project, forced by the final block of
JobTemplateAccess.can_add. -/
theorem C4_amended_jobtemplate_job_types (w : World) (u : User)
    (P : Project) (I : Inventory) (g : Permission)
    (hsu : u.is_superuser = false)
    (hfp : find_project_by w (some P.pk) = some P)
    (hfi : find_inventory_by w (some I.pk) = some I)
    (hnoadm : jt_admin_of_orgs w u P = false)
    (huser : jt_user_permissions w u I.pk P.pk = [g])
    (hteam : jt_team_permissions w u I.pk P.pk = [])
    (hnot : jt_on_project_team w u P = false) :
    JobTemplateAccess.can_add w u (some (mk_jt_data I.pk P.pk .check)) = .ok true ∧
    JobTemplateAccess.can_add w u (some (mk_jt_data I.pk P.pk .deploy)) =
      .ok (g.permission_type == PermType.deploy) := by
  constructor
  · simp [JobTemplateAccess.can_add, hsu, truthy, DataDict.isEmpty, mk_jt_data,
      hfp, hfi, hnoadm, huser, hteam, hnot]
  · cases hgd : g.permission_type == PermType.deploy <;>
      · simp [JobTemplateAccess.can_add, hsu, truthy, DataDict.isEmpty, mk_jt_data,
          hfp, hfi, hnoadm, huser, hteam, hnot]
        simp at hgd
        simp [hgd]

/-- Claim C4 as stated is violated by the code: the non-superuser fixture
actor administers no organization of the project and holds exactly one
direct read-level grant on the inventory and project pair, yet creating a
check-type job template is denied, because the actor is on a team associated
with the project and the final block of can_add then returns False. -/
theorem C4_counterexample :
    fxActor.is_superuser = false ∧
    jt_admin_of_orgs wC4c fxActor fxProjC4 = false ∧
    jt_user_permissions wC4c fxActor fxInv.pk fxProjC4.pk = [fxGrantPairRead] ∧
    jt_team_permissions wC4c fxActor fxInv.pk fxProjC4.pk = [] ∧
    fxGrantPairRead.permission_type = PermType.read ∧
    JobTemplateAccess.can_add wC4c fxActor
      (some (mk_jt_data fxInv.pk fxProjC4.pk .check)) = .ok false := by decide

/-- Witness for the amended claim C4: with the read grant, a check-type
template is allowed and a deploy-type one is denied. -/
theorem C4_witness :
    JobTemplateAccess.can_add wC4w fxActor
      (some (mk_jt_data fxInv.pk fxProjC4w.pk .check)) = .ok true ∧
    JobTemplateAccess.can_add wC4w fxActor
      (some (mk_jt_data fxInv.pk fxProjC4w.pk .deploy)) = .ok false :=
  C4_amended_jobtemplate_job_types wC4w fxActor fxProjC4w fxInv fxGrantPairRead2
    rfl (by decide) (by decide) (by decide) (by decide) (by decide) (by decide)

/-- Claim C9 as amended: the User, Inventory, Host, Group, Credential and
Team querysets exclude inactive instances for every actor, and the
JobTemplate queryset does so for non-superusers; the remaining querysets
(Organization, Project, Permission, Job, JobHostSummary, JobEvent, and
JobTemplate for superusers) apply no active filter at all. -/
theorem C9_amended_active_filters (w : World) (u : User) :
    (∀ v ∈ UserAccess.get_queryset w u, v.is_active = true) ∧
    (∀ i ∈ InventoryAccess.get_queryset0 w u, i.active = true) ∧
    (∀ h ∈ HostAccess.get_queryset w u, h.active = true) ∧
    (∀ g ∈ GroupAccess.get_queryset w u, g.active = true) ∧
    (∀ c ∈ CredentialAccess.get_queryset w u, c.active = true) ∧
    (∀ t ∈ TeamAccess.get_queryset w u, t.active = true) ∧
    (u.is_superuser = false →
      ∀ j ∈ JobTemplateAccess.get_queryset w u, j.active = true) := by
  refine ⟨?_, ?_, ?_, ?_, ?_, ?_, ?_⟩
  · intro v hv
    simp only [UserAccess.get_queryset] at hv
    split at hv
    · exact (List.mem_filter.mp hv).2
    · exact (List.mem_filter.mp (List.mem_filter.mp hv).1).2
  · intro i hi
    simp only [InventoryAccess.get_queryset0, InventoryAccess.get_queryset] at hi
    split at hi
    · exact (List.mem_filter.mp hi).2
    · exact (List.mem_filter.mp (List.mem_filter.mp hi).1).2
  · intro h hh
    simp only [HostAccess.get_queryset] at hh
    exact (List.mem_filter.mp (List.mem_filter.mp hh).1).2
  · intro g hg
    simp only [GroupAccess.get_queryset] at hg
    exact (List.mem_filter.mp (List.mem_filter.mp hg).1).2
  · intro c hc
    simp only [CredentialAccess.get_queryset] at hc
    split at hc
    · exact (List.mem_filter.mp hc).2
    · exact (List.mem_filter.mp (List.mem_filter.mp hc).1).2
  · intro t ht
    simp only [TeamAccess.get_queryset] at ht
    split at ht
    · exact (List.mem_filter.mp ht).2
    · exact (List.mem_filter.mp (List.mem_filter.mp ht).1).2
  · intro hsu j hj
    simp only [JobTemplateAccess.get_queryset, hsu] at hj
    exact (List.mem_filter.mp (List.mem_filter.mp hj).1).2

/-- Claim C9 as stated is violated by the code: the Project queryset shows a
superuser an inactive project, and the Permission queryset shows every
actor, here the plain fixture actor, an inactive grant; neither queryset
filters on the active flag. -/
theorem C9_counterexample :
    fxProjInactive.active = false ∧
    Obj.project fxProjInactive ∈ get_user_queryset wC9 fxSuper ModelClass.project ∧
    fxPermInactive.active = false ∧
    Obj.permission fxPermInactive ∈
      get_user_queryset wC9 fxActor ModelClass.permission := by decide

/-- Witness for the amended claim C9: the fixture actor occurs in their own
user queryset, hence is active by the theorem. -/
theorem C9_witness : fxActor.is_active = true :=
  (C9_amended_active_filters fxWorld fxActor).1 fxActor (by decide)

/-- Boolean equality on Nat agrees with decidable equality. -/
theorem nat_beq_eq_decide (a b : Nat) : (a == b) = decide (a = b) := by
  by_cases h : a = b <;> simp [h]

/-- Claim C1 as amended: a superuser passes every dispatched check and sees
every collection, except for the guards listed in superuser_profile: the Job
evaluator (change only on status new, start and cancel always deny), the
User delete protections, the payload and license requirements of Host and
Group creation, the active-inventory requirements of the Inventory, Host and
Group checks, and the active filters on the User, Inventory, Host, Group,
Credential and Team querysets. -/
theorem C1_amended_superuser_profile (w : World) (u : User)
    (hsu : u.is_superuser = true) : superuser_profile w u := by
  unfold superuser_profile
  repeat' apply And.intro
  all_goals intros
  all_goals try simp [check_user_access_read, check_user_access_add,
    check_user_access_change, check_user_access_delete, check_user_access_start,
    check_user_access_cancel, get_user_queryset,
    UserAccess.can_read, UserAccess.can_change, UserAccess.can_admin,
    UserAccess.can_add, UserAccess.can_delete, UserAccess.get_queryset,
    OrganizationAccess.can_read, OrganizationAccess.can_change,
    OrganizationAccess.can_delete, OrganizationAccess.get_queryset,
    BaseAccess.can_read, BaseAccess.can_add, BaseAccess.can_change,
    BaseAccess.can_delete,
    InventoryAccess.can_read, InventoryAccess.can_read_pk,
    InventoryAccess.has_permission_types, InventoryAccess.get_queryset,
    InventoryAccess.get_queryset0, InventoryAccess.can_add,
    InventoryAccess.can_change, InventoryAccess.can_change_pk,
    InventoryAccess.can_admin, InventoryAccess.can_delete,
    HostAccess.can_read, HostAccess.can_add, HostAccess.can_change,
    HostAccess.can_delete, HostAccess.get_queryset,
    GroupAccess.can_read, GroupAccess.can_add, GroupAccess.can_change,
    GroupAccess.can_delete, GroupAccess.get_queryset,
    CredentialAccess.can_read, CredentialAccess.can_change,
    CredentialAccess.can_add, CredentialAccess.can_delete,
    CredentialAccess.get_queryset,
    TeamAccess.can_read, TeamAccess.can_change, TeamAccess.can_add,
    TeamAccess.can_delete, TeamAccess.get_queryset,
    ProjectAccess.can_read, ProjectAccess.can_change, ProjectAccess.can_delete,
    ProjectAccess.get_queryset,
    PermissionAccess.can_read, PermissionAccess.can_change,
    PermissionAccess.can_delete, PermissionAccess.get_queryset,
    JobTemplateAccess.can_read, JobTemplateAccess.can_add,
    JobTemplateAccess.can_change, JobTemplateAccess.can_delete,
    JobTemplateAccess.get_queryset,
    JobAccess.can_change, JobAccess.can_start, JobAccess.can_cancel,
    JobAccess.get_queryset, JobHostSummaryAccess.get_queryset,
    JobEventAccess.get_queryset,
    activeInvMem, truthy, hasOrgKey, hasInvKey, getInvKey, getOrgKey,
    activeSuperuserCount, hsu]
  all_goals simp [nat_beq_eq_decide]

/-- Claim C1 as stated is violated by the code: for the superuser fixture
actor, the change dispatch on a job whose status is not new returns false,
the start dispatch on a job returns false, and the Host visibility queryset
is not the full unfiltered host collection, since the inactive host is
missing from it. -/
theorem C1_counterexample :
    fxSuper.is_superuser = true ∧
    check_user_access_change wC1 fxSuper (Obj.job fxJobPending) none = .ok false ∧
    check_user_access_start wC1 fxSuper (Obj.job fxJobPending) = .ok false ∧
    Obj.host fxHostInactive ∈ all_objects wC1 ModelClass.host ∧
    get_user_queryset wC1 fxSuper ModelClass.host ≠
      all_objects wC1 ModelClass.host := by decide

/-- Witness for the amended claim C1 at the fixture world and superuser. -/
theorem C1_witness : superuser_profile fxWorld fxSuper :=
  C1_amended_superuser_profile fxWorld fxSuper rfl

end Awx
